import Mathlib

/-!
Verification of the GPS grid generator (`gps-city-radius-extractor.py`).

The program computes, for each city center, a dense lattice of coordinate
points within a fixed radius, filtered by haversine great-circle distance.
Python float arithmetic is modelled over the real numbers `ℝ`; the
`while current <= max: ...; current += step` loops of `create_dense_grid`
are embedded as `scanValues`, whose faithfulness to the loop is recorded by
the unfolding lemma `scanValues_loop`.
-/

namespace GPSGrid

open Real

/-- Constant `EARTH_RADIUS_KM = 6371.0` from the source. -/
def EARTH_RADIUS_KM : ℝ := 6371.0

/-- Constant `CITY_RADIUS_KM = 20.0` from the source. -/
def CITY_RADIUS_KM : ℝ := 20.0

/-- Constant `GRID_SPACING_KM = 1.0` from the source. -/
def GRID_SPACING_KM : ℝ := 1.0

/-- Python `math.radians`: degrees to radians. -/
noncomputable def radians (d : ℝ) : ℝ := d * Real.pi / 180

/-- The intermediate value `a` computed inside `haversine`:
`a = sin(dlat/2)**2 + cos(lat1) * cos(lat2) * sin(dlon/2)**2`,
after the four inputs have been converted to radians. -/
noncomputable def haversine_a (lat1 lon1 lat2 lon2 : ℝ) : ℝ :=
  Real.sin ((radians lat2 - radians lat1) / 2) ^ 2 +
    Real.cos (radians lat1) * Real.cos (radians lat2) *
      Real.sin ((radians lon2 - radians lon1) / 2) ^ 2

/-- `haversine(lat1, lon1, lat2, lon2)` from the source:
`c = 2 * asin(sqrt(a))`, `distance = EARTH_RADIUS_KM * c`. -/
noncomputable def haversine (lat1 lon1 lat2 lon2 : ℝ) : ℝ :=
  EARTH_RADIUS_KM * (2 * Real.arcsin (Real.sqrt (haversine_a lat1 lon1 lat2 lon2)))

/-- Local `km_per_degree_lat = 111.0` of `create_dense_grid`. -/
def km_per_degree_lat : ℝ := 111.0

/-- Local `degrees_per_km_lat = 1.0 / km_per_degree_lat` of `create_dense_grid`. -/
noncomputable def degrees_per_km_lat : ℝ := 1.0 / km_per_degree_lat

/-- Local `km_per_degree_lon = 111.0 * math.cos(math.radians(lat))` of
`create_dense_grid`. -/
noncomputable def km_per_degree_lon (lat : ℝ) : ℝ := 111.0 * Real.cos (radians lat)

/-- Local `degrees_per_km_lon = 1.0 / km_per_degree_lon` of `create_dense_grid`. -/
noncomputable def degrees_per_km_lon (lat : ℝ) : ℝ := 1.0 / km_per_degree_lon lat

/-- Local `lat_step = degrees_per_km_lat * spacing_km` of `create_dense_grid`. -/
noncomputable def lat_step (spacing_km : ℝ) : ℝ := degrees_per_km_lat * spacing_km

/-- Local `lon_step = degrees_per_km_lon * spacing_km` of `create_dense_grid`. -/
noncomputable def lon_step (lat spacing_km : ℝ) : ℝ := degrees_per_km_lon lat * spacing_km

/-- Local `lat_radius_in_degrees = radius_km * degrees_per_km_lat`. -/
noncomputable def lat_radius_in_degrees (radius_km : ℝ) : ℝ := radius_km * degrees_per_km_lat

/-- Local `lon_radius_in_degrees = radius_km * degrees_per_km_lon`. -/
noncomputable def lon_radius_in_degrees (lat radius_km : ℝ) : ℝ :=
  radius_km * degrees_per_km_lon lat

/-- Local `min_lat = lat - lat_radius_in_degrees`. -/
noncomputable def min_lat (lat radius_km : ℝ) : ℝ := lat - lat_radius_in_degrees radius_km

/-- Local `max_lat = lat + lat_radius_in_degrees`. -/
noncomputable def max_lat (lat radius_km : ℝ) : ℝ := lat + lat_radius_in_degrees radius_km

/-- Local `min_lon = lon - lon_radius_in_degrees`. -/
noncomputable def min_lon (lat lon radius_km : ℝ) : ℝ :=
  lon - lon_radius_in_degrees lat radius_km

/-- Local `max_lon = lon + lon_radius_in_degrees`. -/
noncomputable def max_lon (lat lon radius_km : ℝ) : ℝ :=
  lon + lon_radius_in_degrees lat radius_km

/-- Number of iterations of the loop
`current = lo; while current <= hi: ...; current += step`
over exact real arithmetic, for a positive step: the loop visits
`lo + i * step` for `i = 0, 1, ...` as long as the value stays `≤ hi`,
hence `⌊(hi - lo)/step⌋ + 1` iterations when `lo ≤ hi`, and `0` when
`hi < lo` (the body never runs). For `step ≤ 0` together with `lo ≤ hi`
the source loop would not terminate; that case is mapped to `0` and is
never reached under the preconditions of the theorems below. -/
noncomputable def scanCount (lo hi step : ℝ) : ℕ :=
  if lo ≤ hi ∧ 0 < step then (⌊(hi - lo) / step⌋).toNat + 1 else 0

/-- The list of values visited by the loop
`current = lo; while current <= hi: ...; current += step`. -/
noncomputable def scanValues (lo hi step : ℝ) : List ℝ :=
  (List.range (scanCount lo hi step)).map (fun i : ℕ => lo + (i : ℝ) * step)

/-- `create_dense_grid(lat, lon, radius_km, spacing_km)` from the source:
scan the bounding box row by row (latitude outer loop, longitude inner
loop), appending `(current_lat, current_lon, distance)` whenever the
haversine distance from the center is within `radius_km`. -/
noncomputable def create_dense_grid (lat lon radius_km spacing_km : ℝ) :
    List (ℝ × ℝ × ℝ) :=
  (scanValues (min_lat lat radius_km) (max_lat lat radius_km)
      (lat_step spacing_km)).flatMap fun current_lat =>
    (scanValues (min_lon lat lon radius_km) (max_lon lat lon radius_km)
        (lon_step lat spacing_km)).filterMap fun current_lon =>
      if haversine lat lon current_lat current_lon ≤ radius_km then
        some (current_lat, current_lon, haversine lat lon current_lat current_lon)
      else none

/-- A city record as consumed by `process_cities`: the columns of the
parsed dataframe that the core reads. -/
structure CityRecord where
  geonameid : Int
  name : String
  country_code : String
  latitude : ℝ
  longitude : ℝ
  population : Int

/-- One row of the output table built by `process_cities`. -/
structure OutputRow where
  city_id : Int
  city_name : String
  country : String
  population : Int
  city_lat : ℝ
  city_lon : ℝ
  point_lat : ℝ
  point_lon : ℝ
  distance_km : ℝ

/-- `process_cities(df, spacing_km)` from the source: for each city run
`create_dense_grid(lat, lon, CITY_RADIUS_KM, spacing_km)` and emit one
output row per grid point, stamping in the city metadata. -/
noncomputable def process_cities (df : List CityRecord) (spacing_km : ℝ) :
    List OutputRow :=
  df.flatMap fun row =>
    (create_dense_grid row.latitude row.longitude CITY_RADIUS_KM spacing_km).map
      fun p =>
        { city_id := row.geonameid
          city_name := row.name
          country := row.country_code
          population := row.population
          city_lat := row.latitude
          city_lon := row.longitude
          point_lat := p.1
          point_lon := p.2.1
          distance_km := p.2.2 }

/-- Strict scan order on grid points: latitude ascending as major key,
longitude ascending as minor key. -/
def scanOrder (p q : ℝ × ℝ × ℝ) : Prop :=
  p.1 < q.1 ∨ (p.1 = q.1 ∧ p.2.1 < q.2.1)

/-- Two city records sharing coordinates but differing in all metadata,
used as concrete inputs. -/
def cityA : CityRecord := ⟨1, "A", "AA", 0, 0, 15000⟩

/-- Second concrete city record, same coordinates as `cityA`. -/
def cityB : CityRecord := ⟨2, "B", "BB", 0, 0, 20000⟩

/-- `scanCount` under the loop conditions. -/
theorem scanCount_of_cond {lo hi step : ℝ} (h1 : lo ≤ hi) (h2 : 0 < step) :
    scanCount lo hi step = (⌊(hi - lo) / step⌋).toNat + 1 := by
  unfold scanCount
  exact if_pos ⟨h1, h2⟩

/-- `scanCount` when the loop conditions fail. -/
theorem scanCount_of_not {lo hi step : ℝ} (h : ¬(lo ≤ hi ∧ 0 < step)) :
    scanCount lo hi step = 0 := by
  unfold scanCount
  exact if_neg h

/-- A positive iteration count forces the loop conditions. -/
theorem scanCount_cond {lo hi step : ℝ} (h : 0 < scanCount lo hi step) :
    lo ≤ hi ∧ 0 < step := by
  by_contra hc
  rw [scanCount_of_not hc] at h
  exact lt_irrefl 0 h

/-- Every member of `scanValues` is of the form `lo + i * step` and stays
within the loop bound. -/
theorem mem_scanValues_elim {lo hi step x : ℝ} (hx : x ∈ scanValues lo hi step) :
    0 < step ∧ ∃ i : ℕ, x = lo + (i : ℝ) * step ∧ lo + (i : ℝ) * step ≤ hi := by
  unfold scanValues at hx
  obtain ⟨i, him, hix⟩ := List.mem_map.mp hx
  rw [List.mem_range] at him
  have hcond := scanCount_cond (Nat.lt_of_le_of_lt (Nat.zero_le i) him)
  refine ⟨hcond.2, i, hix.symm, ?_⟩
  rw [scanCount_of_cond hcond.1 hcond.2, Nat.lt_succ_iff] at him
  have hflnn : 0 ≤ ⌊(hi - lo) / step⌋ :=
    Int.floor_nonneg.mpr (div_nonneg (by linarith [hcond.1]) hcond.2.le)
  have hile : (i : ℤ) ≤ ⌊(hi - lo) / step⌋ := by omega
  have hreal : (i : ℝ) ≤ (hi - lo) / step := by
    have := Int.le_floor.mp hile
    push_cast at this
    exact this
  have := (le_div_iff₀ hcond.2).mp hreal
  linarith

/-- Conversely, every in-bound lattice value is visited by the loop. -/
theorem mem_scanValues_intro {lo hi step : ℝ} (hstep : 0 < step) (i : ℕ)
    (hle : lo + (i : ℝ) * step ≤ hi) :
    lo + (i : ℝ) * step ∈ scanValues lo hi step := by
  unfold scanValues
  refine List.mem_map.mpr ⟨i, ?_, rfl⟩
  rw [List.mem_range]
  have hlohi : lo ≤ hi := by
    nlinarith [mul_nonneg (Nat.cast_nonneg i : (0:ℝ) ≤ (i : ℝ)) hstep.le]
  rw [scanCount_of_cond hlohi hstep, Nat.lt_succ_iff]
  have h1 : (i : ℝ) ≤ (hi - lo) / step := (le_div_iff₀ hstep).mpr (by linarith)
  have h2 : (i : ℤ) ≤ ⌊(hi - lo) / step⌋ := Int.le_floor.mpr (by push_cast; exact h1)
  omega

/-- Loop values stay inside `[lo, hi]`. -/
theorem scanValues_mem_bounds {lo hi step x : ℝ} (hx : x ∈ scanValues lo hi step) :
    lo ≤ x ∧ x ≤ hi := by
  obtain ⟨hstep, i, hxe, hle⟩ := mem_scanValues_elim hx
  refine ⟨?_, by rw [hxe]; exact hle⟩
  rw [hxe]
  nlinarith [mul_nonneg (Nat.cast_nonneg i : (0:ℝ) ≤ (i : ℝ)) hstep.le]

/-- Loop values are strictly increasing for a positive step. -/
theorem scanValues_pairwise (lo hi step : ℝ) (hstep : 0 < step) :
    (scanValues lo hi step).Pairwise (· < ·) := by
  unfold scanValues
  refine List.Pairwise.map _ ?_ (List.pairwise_lt_range _)
  intro a b hab
  have h : (a : ℝ) < b := Nat.cast_lt.mpr hab
  nlinarith

/-- The number of loop values is `scanCount`. -/
theorem scanValues_length (lo hi step : ℝ) :
    (scanValues lo hi step).length = scanCount lo hi step := by
  unfold scanValues
  rw [List.length_map, List.length_range]

/-- The iteration count depends on the bounds only through `hi - lo`. -/
theorem scanCount_shift (lo hi step : ℝ) :
    scanCount lo hi step = scanCount 0 (hi - lo) step := by
  have hiff : lo ≤ hi ↔ (0 : ℝ) ≤ hi - lo := by
    constructor <;> intro h <;> linarith
  by_cases h : lo ≤ hi ∧ 0 < step
  · rw [scanCount_of_cond h.1 h.2, scanCount_of_cond (hiff.mp h.1) h.2, sub_zero]
  · rw [scanCount_of_not h, scanCount_of_not (fun hc => h ⟨hiff.mpr hc.1, hc.2⟩)]

/-- Faithfulness of `scanValues` to the source loop
`current = lo; while current <= hi: visit current; current += step`:
it satisfies exactly the loop's unfolding equation. -/
theorem scanValues_loop (lo hi step : ℝ) (hstep : 0 < step) :
    scanValues lo hi step =
      if lo ≤ hi then lo :: scanValues (lo + step) hi step else [] := by
  by_cases h : lo ≤ hi
  · rw [if_pos h]
    by_cases h2 : lo + step ≤ hi
    · have hfl : (1 : ℝ) ≤ (hi - lo) / step := (one_le_div hstep).mpr (by linarith)
      have hfl1 : 1 ≤ ⌊(hi - lo) / step⌋ := Int.le_floor.mpr (by push_cast; exact hfl)
      have heq : (hi - (lo + step)) / step = (hi - lo) / step - 1 := by
        field_simp
        ring
      have hcount : scanCount lo hi step = scanCount (lo + step) hi step + 1 := by
        rw [scanCount_of_cond h hstep, scanCount_of_cond h2 hstep, heq,
          Int.floor_sub_one]
        omega
      unfold scanValues
      rw [hcount, List.range_succ_eq_map, List.map_cons, List.map_map]
      congr 1
      · push_cast
        ring
      · refine List.map_congr_left ?_
        intro i him
        simp only [Function.comp_apply]
        push_cast
        ring
    · have hfl : (hi - lo) / step < 1 := (div_lt_one hstep).mpr (by linarith)
      have hge : (0 : ℝ) ≤ (hi - lo) / step := div_nonneg (by linarith) hstep.le
      have h0 : ⌊(hi - lo) / step⌋ = 0 := by
        rw [Int.floor_eq_zero_iff]
        exact ⟨hge, hfl⟩
      have hcount : scanCount lo hi step = 1 := by
        rw [scanCount_of_cond h hstep, h0]
        rfl
      have hcount2 : scanCount (lo + step) hi step = 0 :=
        scanCount_of_not (fun hc => h2 hc.1)
      unfold scanValues
      rw [hcount, hcount2]
      simp [List.range_succ]
  · rw [if_neg h]
    unfold scanValues
    rw [scanCount_of_not (fun hc => h hc.1)]
    simp

/-- Haversine distance of a point from itself: the intermediate `a` is `0`. -/
theorem haversine_a_self (lat lon : ℝ) : haversine_a lat lon lat lon = 0 := by
  unfold haversine_a
  simp

/-- Haversine distance of a point from itself is `0`. -/
theorem haversine_self (lat lon : ℝ) : haversine lat lon lat lon = 0 := by
  unfold haversine
  rw [haversine_a_self]
  simp

/-- Half-angle identity used below. -/
theorem sin_half_sq (x : ℝ) : Real.sin (x / 2) ^ 2 = 1 / 2 - Real.cos x / 2 := by
  have h : 2 * (x / 2) = x := by ring
  rw [Real.sin_sq, Real.cos_sq, h]
  ring

/-- The haversine intermediate `a` as a cosine of the central angle:
`a = (1 - (sin φ₁ sin φ₂ + cos φ₁ cos φ₂ cos Δλ)) / 2`. -/
theorem haversine_a_eq (lat1 lon1 lat2 lon2 : ℝ) :
    haversine_a lat1 lon1 lat2 lon2 =
      (1 - (Real.sin (radians lat1) * Real.sin (radians lat2) +
        Real.cos (radians lat1) * Real.cos (radians lat2) *
          Real.cos (radians lon2 - radians lon1))) / 2 := by
  unfold haversine_a
  rw [sin_half_sq, sin_half_sq, Real.cos_sub]
  ring

/-- Two-point inner-product bound: the cosine of the central angle is `≤ 1`. -/
theorem trig_inner_le_one (p q d : ℝ) :
    Real.sin p * Real.sin q + Real.cos p * Real.cos q * Real.cos d ≤ 1 := by
  nlinarith [Real.sin_sq_add_cos_sq p, Real.sin_sq_add_cos_sq q,
    Real.sin_sq_add_cos_sq d, sq_nonneg (Real.sin p - Real.sin q),
    sq_nonneg (Real.cos p * Real.cos d - Real.cos q),
    sq_nonneg (Real.cos p * Real.sin d)]

/-- Two-point inner-product bound: the cosine of the central angle is `≥ -1`. -/
theorem neg_one_le_trig_inner (p q d : ℝ) :
    -1 ≤ Real.sin p * Real.sin q + Real.cos p * Real.cos q * Real.cos d := by
  nlinarith [Real.sin_sq_add_cos_sq p, Real.sin_sq_add_cos_sq q,
    Real.sin_sq_add_cos_sq d, sq_nonneg (Real.sin p + Real.sin q),
    sq_nonneg (Real.cos p * Real.cos d + Real.cos q),
    sq_nonneg (Real.cos p * Real.sin d)]

/-- The haversine intermediate `a` is nonnegative for all real inputs. -/
theorem haversine_a_nonneg (lat1 lon1 lat2 lon2 : ℝ) :
    0 ≤ haversine_a lat1 lon1 lat2 lon2 := by
  rw [haversine_a_eq]
  have h := trig_inner_le_one (radians lat1) (radians lat2)
    (radians lon2 - radians lon1)
  linarith

/-- The haversine intermediate `a` is at most `1` for all real inputs. -/
theorem haversine_a_le_one (lat1 lon1 lat2 lon2 : ℝ) :
    haversine_a lat1 lon1 lat2 lon2 ≤ 1 := by
  rw [haversine_a_eq]
  have h := neg_one_le_trig_inner (radians lat1) (radians lat2)
    (radians lon2 - radians lon1)
  linarith

/-- The haversine distance is nonnegative for all real inputs. -/
theorem haversine_nonneg (lat1 lon1 lat2 lon2 : ℝ) :
    0 ≤ haversine lat1 lon1 lat2 lon2 := by
  unfold haversine
  have h1 : 0 ≤ Real.arcsin (Real.sqrt (haversine_a lat1 lon1 lat2 lon2)) :=
    Real.arcsin_nonneg.mpr (Real.sqrt_nonneg _)
  have h2 : (0 : ℝ) ≤ EARTH_RADIUS_KM := by norm_num [EARTH_RADIUS_KM]
  nlinarith

/-- The haversine distance is at most half the sphere circumference. -/
theorem haversine_le_pi_mul (lat1 lon1 lat2 lon2 : ℝ) :
    haversine lat1 lon1 lat2 lon2 ≤ Real.pi * EARTH_RADIUS_KM := by
  unfold haversine
  have harc : Real.arcsin (Real.sqrt (haversine_a lat1 lon1 lat2 lon2)) ≤ Real.pi / 2 :=
    Real.arcsin_le_pi_div_two _
  have h2 : (0 : ℝ) ≤ EARTH_RADIUS_KM := by norm_num [EARTH_RADIUS_KM]
  nlinarith

/-- Symmetry of the haversine intermediate `a`. -/
theorem haversine_a_symm (lat1 lon1 lat2 lon2 : ℝ) :
    haversine_a lat1 lon1 lat2 lon2 = haversine_a lat2 lon2 lat1 lon1 := by
  unfold haversine_a
  rw [show (radians lat1 - radians lat2) / 2 =
      -((radians lat2 - radians lat1) / 2) by ring,
    show (radians lon1 - radians lon2) / 2 =
      -((radians lon2 - radians lon1) / 2) by ring,
    Real.sin_neg, Real.sin_neg]
  ring

/-- Symmetry of the haversine distance. -/
theorem haversine_symm (lat1 lon1 lat2 lon2 : ℝ) :
    haversine lat1 lon1 lat2 lon2 = haversine lat2 lon2 lat1 lon1 := by
  unfold haversine
  rw [haversine_a_symm]

/-- A flat-mapped list is pairwise-ordered when each block is and blocks are
ordered pointwise across the outer relation. -/
theorem pairwise_flatMap {α β : Type} {R : β → β → Prop} {l : List α}
    {f : α → List β} (h1 : ∀ a ∈ l, (f a).Pairwise R)
    (h2 : l.Pairwise (fun a b => ∀ x ∈ f a, ∀ y ∈ f b, R x y)) :
    (l.flatMap f).Pairwise R := by
  induction l with
  | nil => simp
  | cons a l ih =>
    rw [List.flatMap_cons, List.pairwise_append]
    rw [List.pairwise_cons] at h2
    refine ⟨h1 a (List.mem_cons_self a l),
      ih (fun b hb => h1 b (List.mem_cons_of_mem a hb)) h2.2, ?_⟩
    intro x hx y hy
    obtain ⟨b, hb, hyb⟩ := List.mem_flatMap.mp hy
    exact h2.1 b hb x hx y hyb

/-- `filterMap` transports pairwise orderedness along the partial map. -/
theorem pairwise_filterMap {α β : Type} {R : α → α → Prop} {S : β → β → Prop}
    {g : α → Option β}
    (H : ∀ a b, R a b → ∀ x, g a = some x → ∀ y, g b = some y → S x y)
    {l : List α} (hl : l.Pairwise R) : (l.filterMap g).Pairwise S := by
  induction hl with
  | nil => simp
  | @cons a l ha hl ih =>
    cases hga : g a with
    | none => rw [List.filterMap_cons_none hga]; exact ih
    | some x =>
      rw [List.filterMap_cons_some hga, List.pairwise_cons]
      refine ⟨?_, ih⟩
      intro y hy
      obtain ⟨b, hb, hgb⟩ := List.mem_filterMap.mp hy
      exact H a b (ha b hb) x hga y hgb

/-- Elimination form for membership in `create_dense_grid`: a returned
point comes from the lattice scan, carries its haversine distance, and
that distance is within the radius. -/
theorem mem_create_dense_grid_elim {lat lon radius_km spacing_km : ℝ}
    {p : ℝ × ℝ × ℝ} (hp : p ∈ create_dense_grid lat lon radius_km spacing_km) :
    p.1 ∈ scanValues (min_lat lat radius_km) (max_lat lat radius_km)
        (lat_step spacing_km) ∧
      p.2.1 ∈ scanValues (min_lon lat lon radius_km) (max_lon lat lon radius_km)
        (lon_step lat spacing_km) ∧
      p.2.2 = haversine lat lon p.1 p.2.1 ∧ p.2.2 ≤ radius_km := by
  unfold create_dense_grid at hp
  obtain ⟨clat, hclat, hp2⟩ := List.mem_flatMap.mp hp
  obtain ⟨clon, hclon, hg⟩ := List.mem_filterMap.mp hp2
  by_cases hle : haversine lat lon clat clon ≤ radius_km
  · rw [if_pos hle] at hg
    obtain rfl := Option.some.inj hg
    exact ⟨hclat, hclon, rfl, hle⟩
  · rw [if_neg hle] at hg
    exact absurd hg (by simp)

/-- Introduction form for membership in `create_dense_grid`. -/
theorem mem_create_dense_grid_intro {lat lon radius_km spacing_km clat clon : ℝ}
    (h1 : clat ∈ scanValues (min_lat lat radius_km) (max_lat lat radius_km)
      (lat_step spacing_km))
    (h2 : clon ∈ scanValues (min_lon lat lon radius_km) (max_lon lat lon radius_km)
      (lon_step lat spacing_km))
    (h3 : haversine lat lon clat clon ≤ radius_km) :
    (clat, clon, haversine lat lon clat clon) ∈
      create_dense_grid lat lon radius_km spacing_km := by
  unfold create_dense_grid
  exact List.mem_flatMap.mpr ⟨clat, h1, List.mem_filterMap.mpr ⟨clon, h2, if_pos h3⟩⟩

/-- A degenerate scan interval visits exactly its single endpoint. -/
theorem scanValues_self (x step : ℝ) (h : 0 < step) : scanValues x x step = [x] := by
  unfold scanValues
  rw [scanCount_of_cond le_rfl h]
  norm_num [List.range_succ]

/-- The latitude step is positive for positive spacing. -/
theorem lat_step_pos {spacing_km : ℝ} (hS : 0 < spacing_km) :
    0 < lat_step spacing_km := by
  unfold lat_step degrees_per_km_lat km_per_degree_lat
  positivity

/-- The longitude step is positive for positive spacing away from the poles. -/
theorem lon_step_pos {lat spacing_km : ℝ} (hS : 0 < spacing_km)
    (hcos : 0 < Real.cos (radians lat)) : 0 < lon_step lat spacing_km := by
  unfold lon_step degrees_per_km_lon km_per_degree_lon
  have h111 : (0 : ℝ) < 111.0 * Real.cos (radians lat) := by
    have : (0 : ℝ) < 111.0 := by norm_num
    exact mul_pos this hcos
  exact mul_pos (div_pos (by norm_num) h111) hS

/-- With radius `0` the box collapses to the center, which is kept with
distance `0`: the grid is exactly `[(lat, lon, 0)]`. -/
theorem create_dense_grid_zero_radius (lat lon spacing_km : ℝ)
    (hS : 0 < spacing_km) (hcos : 0 < Real.cos (radians lat)) :
    create_dense_grid lat lon 0 spacing_km = [(lat, lon, 0)] := by
  have hminlat : min_lat lat 0 = lat := by
    unfold min_lat lat_radius_in_degrees
    ring
  have hmaxlat : max_lat lat 0 = lat := by
    unfold max_lat lat_radius_in_degrees
    ring
  have hminlon : min_lon lat lon 0 = lon := by
    unfold min_lon lon_radius_in_degrees
    ring
  have hmaxlon : max_lon lat lon 0 = lon := by
    unfold max_lon lon_radius_in_degrees
    ring
  unfold create_dense_grid
  rw [hminlat, hmaxlat, hminlon, hmaxlon,
    scanValues_self _ _ (lat_step_pos hS), scanValues_self _ _ (lon_step_pos hS hcos)]
  simp [haversine_self]

/-- The grid at center `(0, 0)`, radius `0`, spacing `111` is the single
center point. -/
theorem grid_zero : create_dense_grid 0 0 0 111 = [((0:ℝ), (0:ℝ), (0:ℝ))] :=
  create_dense_grid_zero_radius 0 0 111 (by norm_num)
    (by norm_num [radians, Real.cos_zero])

/-- Latitude box corner at center `0`, radius `111`. -/
theorem min_lat_eval : min_lat 0 111 = -1 := by
  unfold min_lat lat_radius_in_degrees degrees_per_km_lat km_per_degree_lat
  norm_num

/-- Latitude box corner at center `0`, radius `111`. -/
theorem max_lat_eval : max_lat 0 111 = 1 := by
  unfold max_lat lat_radius_in_degrees degrees_per_km_lat km_per_degree_lat
  norm_num

/-- Latitude step at spacing `111`. -/
theorem lat_step_eval : lat_step 111 = 1 := by
  unfold lat_step degrees_per_km_lat km_per_degree_lat
  norm_num

/-- Longitude box corner at center `(0, 0)`, radius `111`. -/
theorem min_lon_eval : min_lon 0 0 111 = -1 := by
  unfold min_lon lon_radius_in_degrees degrees_per_km_lon km_per_degree_lon
  norm_num [radians, Real.cos_zero]

/-- Longitude box corner at center `(0, 0)`, radius `111`. -/
theorem max_lon_eval : max_lon 0 0 111 = 1 := by
  unfold max_lon lon_radius_in_degrees degrees_per_km_lon km_per_degree_lon
  norm_num [radians, Real.cos_zero]

/-- Longitude step at latitude `0`, spacing `111`. -/
theorem lon_step_eval : lon_step 0 111 = 1 := by
  unfold lon_step degrees_per_km_lon km_per_degree_lon
  norm_num [radians, Real.cos_zero]

/-- `0` is visited by the scan from `-1` to `1` with step `1`. -/
theorem zero_mem_scan : (0 : ℝ) ∈ scanValues (-1) 1 1 := by
  have h : (-1 : ℝ) + ((1 : ℕ) : ℝ) * 1 ≤ 1 := by norm_num
  have hm := mem_scanValues_intro (by norm_num : (0:ℝ) < 1) 1 h
  have he : (-1 : ℝ) + ((1 : ℕ) : ℝ) * 1 = 0 := by norm_num
  rwa [he] at hm

/-- The center `(0, 0, 0)` is a member of the grid at center `(0, 0)`,
radius `111`, spacing `111`. -/
theorem mem_grid_111 :
    ((0:ℝ), (0:ℝ), (0:ℝ)) ∈ create_dense_grid 0 0 111 111 := by
  have h1 : (0 : ℝ) ∈ scanValues (min_lat 0 111) (max_lat 0 111) (lat_step 111) := by
    rw [min_lat_eval, max_lat_eval, lat_step_eval]
    exact zero_mem_scan
  have h2 : (0 : ℝ) ∈ scanValues (min_lon 0 0 111) (max_lon 0 0 111) (lon_step 0 111) := by
    rw [min_lon_eval, max_lon_eval, lon_step_eval]
    exact zero_mem_scan
  have h3 : haversine 0 0 0 0 ≤ 111 := by
    rw [haversine_self]
    norm_num
  have hm := mem_create_dense_grid_intro h1 h2 h3
  rwa [haversine_self] at hm

/-- A kept grid cell has the scanned latitude and longitude as its first
two components. -/
theorem grid_cell_shape {lat lon radius_km clat clon : ℝ} {x : ℝ × ℝ × ℝ}
    (h : (if haversine lat lon clat clon ≤ radius_km then
        some (clat, clon, haversine lat lon clat clon) else none) = some x) :
    x.1 = clat ∧ x.2.1 = clon := by
  by_cases hle : haversine lat lon clat clon ≤ radius_km
  · rw [if_pos hle] at h
    obtain rfl := Option.some.inj h
    exact ⟨rfl, rfl⟩
  · rw [if_neg hle] at h
    exact absurd h (by simp)

/-- The grid output is strictly increasing in scan order: latitude-major,
longitude-minor. -/
theorem create_dense_grid_sorted (lat lon radius_km spacing_km : ℝ)
    (hS : 0 < spacing_km) (hcos : 0 < Real.cos (radians lat)) :
    (create_dense_grid lat lon radius_km spacing_km).Pairwise scanOrder := by
  unfold create_dense_grid
  apply pairwise_flatMap
  · intro clat hclat
    refine pairwise_filterMap ?_ (scanValues_pairwise _ _ _ (lon_step_pos hS hcos))
    intro a b hab x hx y hy
    obtain ⟨hx1, hx2⟩ := grid_cell_shape hx
    obtain ⟨hy1, hy2⟩ := grid_cell_shape hy
    right
    refine ⟨?_, ?_⟩
    · rw [hx1, hy1]
    · rw [hx2, hy2]
      exact hab
  · refine List.Pairwise.imp ?_ (scanValues_pairwise _ _ _ (lat_step_pos hS))
    intro a b hab x hx y hy
    obtain ⟨c, hc, hxg⟩ := List.mem_filterMap.mp hx
    obtain ⟨d, hd, hyg⟩ := List.mem_filterMap.mp hy
    left
    rw [(grid_cell_shape hxg).1, (grid_cell_shape hyg).1]
    exact hab

/-- Claim C1: for every center, radius `R ≥ 0` and spacing `S > 0`, every
point `(p_lat, p_lon, d)` in the sequence returned by `create_dense_grid`
satisfies `d = haversine lat lon p_lat p_lon` and `d ≤ R`; no point with
distance greater than the radius is ever emitted. -/
theorem claim_C1_containment (lat lon radius_km spacing_km : ℝ)
    (hR : 0 ≤ radius_km) (hS : 0 < spacing_km) (p : ℝ × ℝ × ℝ)
    (hp : p ∈ create_dense_grid lat lon radius_km spacing_km) :
    p.2.2 = haversine lat lon p.1 p.2.1 ∧ p.2.2 ≤ radius_km := by
  obtain ⟨-, -, h3, h4⟩ := mem_create_dense_grid_elim hp
  exact ⟨h3, h4⟩

/-- Witness for C1 at center `(0,0)`, radius `0`, spacing `111`, on the
returned point `(0, 0, 0)`. -/
theorem claim_C1_containment_witness :
    ((0:ℝ), (0:ℝ), (0:ℝ)).2.2 =
        haversine 0 0 ((0:ℝ), (0:ℝ), (0:ℝ)).1 ((0:ℝ), (0:ℝ), (0:ℝ)).2.1 ∧
      ((0:ℝ), (0:ℝ), (0:ℝ)).2.2 ≤ 0 :=
  claim_C1_containment 0 0 0 111 le_rfl (by norm_num) ((0:ℝ), (0:ℝ), (0:ℝ))
    (by rw [grid_zero]; exact List.mem_singleton.mpr rfl)

/-- Claim C2: the haversine distance function is symmetric in its two
coordinate pairs. -/
theorem claim_C2_symmetry (lat1 lon1 lat2 lon2 : ℝ) :
    haversine lat1 lon1 lat2 lon2 = haversine lat2 lon2 lat1 lon1 :=
  haversine_symm lat1 lon1 lat2 lon2

/-- Claim C3: for every center with `cos(lat) > 0` and every spacing
`S > 0`, `create_dense_grid` with radius `0` returns exactly one point,
the center itself, carrying distance `0`. -/
theorem claim_C3_zero_radius (lat lon spacing_km : ℝ) (hS : 0 < spacing_km)
    (hcos : 0 < Real.cos (radians lat)) :
    create_dense_grid lat lon 0 spacing_km = [(lat, lon, 0)] :=
  create_dense_grid_zero_radius lat lon spacing_km hS hcos

/-- Witness for C3 at center `(0, 0)` with spacing `111`. -/
theorem claim_C3_zero_radius_witness :
    create_dense_grid 0 0 0 111 = [((0:ℝ), (0:ℝ), (0:ℝ))] :=
  claim_C3_zero_radius 0 0 111 (by norm_num) (by norm_num [radians, Real.cos_zero])

/-- Claim C4: every returned point lies in the bounding box
`[lat - R/111, lat + R/111] × [lon - R/(111 cos lat), lon + R/(111 cos lat)]`. -/
theorem claim_C4_bounding_box (lat lon radius_km spacing_km : ℝ)
    (hR : 0 < radius_km) (hS : 0 < spacing_km) (p : ℝ × ℝ × ℝ)
    (hp : p ∈ create_dense_grid lat lon radius_km spacing_km) :
    lat - radius_km / 111.0 ≤ p.1 ∧ p.1 ≤ lat + radius_km / 111.0 ∧
      lon - radius_km / (111.0 * Real.cos (radians lat)) ≤ p.2.1 ∧
      p.2.1 ≤ lon + radius_km / (111.0 * Real.cos (radians lat)) := by
  obtain ⟨h1, h2, -, -⟩ := mem_create_dense_grid_elim hp
  obtain ⟨ha, hb⟩ := scanValues_mem_bounds h1
  obtain ⟨hc, hd⟩ := scanValues_mem_bounds h2
  have e1 : min_lat lat radius_km = lat - radius_km / 111.0 := by
    unfold min_lat lat_radius_in_degrees degrees_per_km_lat km_per_degree_lat
    ring
  have e2 : max_lat lat radius_km = lat + radius_km / 111.0 := by
    unfold max_lat lat_radius_in_degrees degrees_per_km_lat km_per_degree_lat
    ring
  have e3 : min_lon lat lon radius_km =
      lon - radius_km / (111.0 * Real.cos (radians lat)) := by
    unfold min_lon lon_radius_in_degrees degrees_per_km_lon km_per_degree_lon
    ring
  have e4 : max_lon lat lon radius_km =
      lon + radius_km / (111.0 * Real.cos (radians lat)) := by
    unfold max_lon lon_radius_in_degrees degrees_per_km_lon km_per_degree_lon
    ring
  rw [e1] at ha
  rw [e2] at hb
  rw [e3] at hc
  rw [e4] at hd
  exact ⟨ha, hb, hc, hd⟩

/-- Witness for C4 at center `(0, 0)`, radius `111`, spacing `111`, on the
returned point `(0, 0, 0)`. -/
theorem claim_C4_bounding_box_witness :
    (0:ℝ) - 111 / 111.0 ≤ ((0:ℝ), (0:ℝ), (0:ℝ)).1 ∧
      ((0:ℝ), (0:ℝ), (0:ℝ)).1 ≤ (0:ℝ) + 111 / 111.0 ∧
      (0:ℝ) - 111 / (111.0 * Real.cos (radians 0)) ≤ ((0:ℝ), (0:ℝ), (0:ℝ)).2.1 ∧
      ((0:ℝ), (0:ℝ), (0:ℝ)).2.1 ≤ (0:ℝ) + 111 / (111.0 * Real.cos (radians 0)) :=
  claim_C4_bounding_box 0 0 111 111 (by norm_num) (by norm_num)
    ((0:ℝ), (0:ℝ), (0:ℝ)) mem_grid_111

/-- Claim C5: for positive radius and spacing with `cos(lat) > 0`, the
returned sequence is in scan order: strictly sorted with latitude
ascending as the major key and longitude ascending as the minor key. -/
theorem claim_C5_scan_order (lat lon radius_km spacing_km : ℝ)
    (hR : 0 < radius_km) (hS : 0 < spacing_km)
    (hcos : 0 < Real.cos (radians lat)) :
    (create_dense_grid lat lon radius_km spacing_km).Pairwise scanOrder :=
  create_dense_grid_sorted lat lon radius_km spacing_km hS hcos

/-- Witness for C5 at center `(0, 0)`, radius `111`, spacing `111`. -/
theorem claim_C5_scan_order_witness :
    (create_dense_grid 0 0 111 111).Pairwise scanOrder :=
  claim_C5_scan_order 0 0 111 111 (by norm_num) (by norm_num)
    (by norm_num [radians, Real.cos_zero])

/-- Claim C6: the haversine distance of a point from itself is zero. -/
theorem claim_C6_self_distance (lat lon : ℝ) : haversine lat lon lat lon = 0 :=
  haversine_self lat lon

/-- Claim C7: for equal radius and spacing, the longitude step at center
latitude `60` is `1/cos(60°) = 2` times the longitude step at latitude `0`,
while the number of latitude rows scanned is the same. -/
theorem claim_C7_latitude_scaling (radius_km spacing_km : ℝ) :
    lon_step 60 spacing_km = 2 * lon_step 0 spacing_km ∧
      (scanValues (min_lat 60 radius_km) (max_lat 60 radius_km)
          (lat_step spacing_km)).length =
        (scanValues (min_lat 0 radius_km) (max_lat 0 radius_km)
          (lat_step spacing_km)).length := by
  constructor
  · have h60 : radians 60 = Real.pi / 3 := by
      unfold radians
      ring
    have h0 : radians 0 = 0 := by
      unfold radians
      ring
    unfold lon_step degrees_per_km_lon km_per_degree_lon
    rw [h60, h0, Real.cos_pi_div_three, Real.cos_zero]
    ring
  · rw [scanValues_length, scanValues_length,
      scanCount_shift (min_lat 60 radius_km) (max_lat 60 radius_km)
        (lat_step spacing_km),
      scanCount_shift (min_lat 0 radius_km) (max_lat 0 radius_km)
        (lat_step spacing_km)]
    congr 1
    unfold max_lat min_lat
    ring

/-- Claim C8: grid generation depends only on the center coordinates: two
city records with identical coordinates yield identical grids, and their
output rows agree on `point_lat`, `point_lon` and `distance_km`. -/
theorem claim_C8_coordinate_determinism (c1 c2 : CityRecord) (spacing_km : ℝ)
    (hlat : c1.latitude = c2.latitude) (hlon : c1.longitude = c2.longitude) :
    create_dense_grid c1.latitude c1.longitude CITY_RADIUS_KM spacing_km =
        create_dense_grid c2.latitude c2.longitude CITY_RADIUS_KM spacing_km ∧
      (process_cities [c1] spacing_km).map
          (fun r => (r.point_lat, r.point_lon, r.distance_km)) =
        (process_cities [c2] spacing_km).map
          (fun r => (r.point_lat, r.point_lon, r.distance_km)) := by
  have hg : create_dense_grid c1.latitude c1.longitude CITY_RADIUS_KM spacing_km =
      create_dense_grid c2.latitude c2.longitude CITY_RADIUS_KM spacing_km := by
    rw [hlat, hlon]
  refine ⟨hg, ?_⟩
  unfold process_cities
  simp only [List.flatMap_cons, List.flatMap_nil, List.append_nil]
  rw [List.map_map, List.map_map, hg]
  refine List.map_congr_left ?_
  intro p hp
  rfl

/-- Witness for C8 on `cityA` and `cityB` (same coordinates, different
metadata) with spacing `1`. -/
theorem claim_C8_coordinate_determinism_witness :
    create_dense_grid cityA.latitude cityA.longitude CITY_RADIUS_KM 1 =
        create_dense_grid cityB.latitude cityB.longitude CITY_RADIUS_KM 1 ∧
      (process_cities [cityA] 1).map
          (fun r => (r.point_lat, r.point_lon, r.distance_km)) =
        (process_cities [cityB] 1).map
          (fun r => (r.point_lat, r.point_lon, r.distance_km)) :=
  claim_C8_coordinate_determinism cityA cityB 1 rfl rfl

/-- Claim C9: at latitude `+90` or `-90` the computation
`km_per_degree_lon = 111.0 * cos(radians lat)` is exactly zero, so the
source expression `degrees_per_km_lon = 1.0 / km_per_degree_lon` divides by
zero (the real-valued model records the zero denominator; IEEE arithmetic
would turn the subsequent steps into Inf/NaN). -/
theorem claim_C9_pole_degeneracy :
    km_per_degree_lon 90 = 0 ∧ km_per_degree_lon (-90) = 0 := by
  constructor
  · have h : radians 90 = Real.pi / 2 := by
      unfold radians
      ring
    unfold km_per_degree_lon
    rw [h, Real.cos_pi_div_two, mul_zero]
  · have h : radians (-90) = -(Real.pi / 2) := by
      unfold radians
      ring
    unfold km_per_degree_lon
    rw [h, Real.cos_neg, Real.cos_pi_div_two, mul_zero]

/-- Claim C10: `haversine` is total with nonnegative result: the
intermediate `a` lies in `[0, 1]` for all real inputs (so `sqrt` and
`asin` are within their domains) and the distance lies in
`[0, π · 6371.0]`. -/
theorem claim_C10_totality (lat1 lon1 lat2 lon2 : ℝ) :
    0 ≤ haversine_a lat1 lon1 lat2 lon2 ∧ haversine_a lat1 lon1 lat2 lon2 ≤ 1 ∧
      0 ≤ haversine lat1 lon1 lat2 lon2 ∧
      haversine lat1 lon1 lat2 lon2 ≤ Real.pi * EARTH_RADIUS_KM :=
  ⟨haversine_a_nonneg lat1 lon1 lat2 lon2, haversine_a_le_one lat1 lon1 lat2 lon2,
    haversine_nonneg lat1 lon1 lat2 lon2, haversine_le_pi_mul lat1 lon1 lat2 lon2⟩

end GPSGrid
